import Mathlib

/-!
# Shallow embedding of the wasmparser Emitter (`WasmEmitter.ts`) and
# Disassembler (`WasmDis.ts`)

The definitions below are direct translations of the TypeScript sources.
JavaScript `number` values that the code treats as unsigned 32-bit integers
are modelled as `Nat` (the code only ever feeds values below `2^32` to these
paths); signed 32-bit integers are modelled as `Int`.  Bitwise idioms of the
source are rendered arithmetically: `x & 0x7f` becomes `x % 0x80`,
`x >>> 7` becomes `x / 0x80`, and `0x80 | y` (for `y < 0x80`) becomes
`0x80 + y`.  The mutable byte buffer is a `List Nat`; every emitter method
is a pure function from the emitter record to the new record, paired with
`Option String`: `none` means normal return, `some msg` means the method
threw `msg`, and in that case the returned record carries exactly the
mutations the source performed before the `throw`.
-/

/-- `writeVarUint` loop body, structurally recursive on explicit fuel.
The source (`WasmEmitter.ts` lines 160-166) loops
`while (n & ~0x7F) { push(0x80 | (n & 0x7f)); n >>>= 7 }; push(n)`;
five iterations cover every unsigned 32-bit value, the only values the
emitter feeds it.  The fuel-exhaustion branch is never taken for such
inputs. -/
def varUintGo (fuel : Nat) (n : Nat) : List Nat :=
  match fuel with
  | 0 => [n % 0x80]
  | f + 1 =>
    if n < 0x80 then [n]
    else (0x80 + n % 0x80) :: varUintGo f (n / 0x80)

/-- Bytes produced by `writeVarUint(n)` (`WasmEmitter.ts` lines 160-166). -/
def varUintBytes (n : Nat) : List Nat := varUintGo 5 n

/-- `writeVarInt` loop body, on fuel (`WasmEmitter.ts` lines 168-176):
`n |= 0; test = n >> 31; while ((n >> 6) != test) { push(0x80 | (n & 0x7f)); n >>= 7 }
push(n & 0x7f)`.  Arithmetic right shift of an `Int32` by `k` is floor
division by `2^k` (`Int.ediv` for a positive divisor), and the sign test
`n >> 31` is `-1` for negative `n` and `0` otherwise; the low seven bits of
a two's-complement value are `Int.emod n 0x80`.  Six iterations cover every
32-bit signed value. -/
def varIntGo (fuel : Nat) (n : Int) : List Nat :=
  match fuel with
  | 0 => [(Int.emod n 0x80).toNat]
  | f + 1 =>
    if Int.ediv n 0x40 = (if n < 0 then (-1 : Int) else 0) then
      [(Int.emod n 0x80).toNat]
    else (0x80 + (Int.emod n 0x80).toNat) :: varIntGo f (Int.ediv n 0x80)

/-- Bytes produced by `writeVarInt(n)` for a 32-bit signed `n`. -/
def varIntBytes (n : Int) : List Nat := varIntGo 6 n

/-- The five placeholder bytes written by `writePatchableVarUint32`
(`WasmEmitter.ts` lines 178-182): `0x80 0x80 0x80 0x80 0x00`. -/
def patchableVarUint32Bytes : List Nat := [0x80, 0x80, 0x80, 0x80, 0x00]

/-- The five bytes stored by `patchVarUint32(pos, n)`
(`WasmEmitter.ts` lines 199-205): continuation bit set on the first four
byte groups, clear on the fifth. -/
def patchBytes5 (n : Nat) : List Nat :=
  [ 0x80 + n % 0x80,
    0x80 + n / 0x80 % 0x80,
    0x80 + n / 0x80 ^ 2 % 0x80,
    0x80 + n / 0x80 ^ 3 % 0x80,
    n / 0x80 ^ 4 % 0x80 ]

/-- `patchVarUint32` (`WasmEmitter.ts` lines 199-205): five in-place
`patchByte` stores.  `List.set` is the shallow rendering of
`this._buffer[pos] = byte`; the source only ever patches positions of a
previously reserved (hence in-range) slot. -/
def patchVarUint32 (buf : List Nat) (pos : Nat) (n : Nat) : List Nat :=
  ((((buf.set pos (0x80 + n % 0x80)).set (pos + 1)
      (0x80 + n / 0x80 % 0x80)).set (pos + 2)
      (0x80 + n / 0x80 ^ 2 % 0x80)).set (pos + 3)
      (0x80 + n / 0x80 ^ 3 % 0x80)).set (pos + 4)
      (n / 0x80 ^ 4 % 0x80)

/-- Byte of a buffer at an index (0 when out of range), used to state what a
back-patched slot holds. -/
def byteAt (buf : List Nat) (i : Nat) : Nat := (buf[i]?).getD 0

/-- The unsigned value encoded by the 5-byte LEB128 slot starting at `pos`
(each byte contributes its low seven bits). -/
def decodeVarUint32At (buf : List Nat) (pos : Nat) : Nat :=
  byteAt buf pos % 0x80
    + byteAt buf (pos + 1) % 0x80 * 0x80
    + byteAt buf (pos + 2) % 0x80 * 0x80 ^ 2
    + byteAt buf (pos + 3) % 0x80 * 0x80 ^ 3
    + byteAt buf (pos + 4) % 0x80 * 0x80 ^ 4

/-! ## Enumeration constants

`WasmParser.ts` is imported by both source files but is not part of this
repository snapshot; the constants below are modelled from the spec.
-/

/-- Modelled from the spec: `SectionCode` lives in the absent
`WasmParser.ts`; §3 of the spec fixes the ids
`Custom=0, Type=1, Import=2, Function=3, Table=4, Memory=5, Global=6,
Export=7, Start=8, Element=9, Code=10, Data=11`. -/
def sectionCodeCustom : Nat := 0
def sectionCodeType : Nat := 1
def sectionCodeImport : Nat := 2
def sectionCodeFunction : Nat := 3
def sectionCodeTable : Nat := 4
def sectionCodeMemory : Nat := 5
def sectionCodeGlobal : Nat := 6
def sectionCodeExport : Nat := 7
def sectionCodeStart : Nat := 8
def sectionCodeElement : Nat := 9
def sectionCodeCode : Nat := 10
def sectionCodeData : Nat := 11

/-- Modelled from the spec: `OperatorCode` lives in the absent
`WasmParser.ts`.  The spec pins `br_table = 0x0E` (scenario 4),
`end = 0x0B` and `i32.const = 0x41` (scenario 5), and §6.2 fixes the
encoding to the Wasm MVP binary format, which assigns the remaining
one-byte opcodes used by the two source files as listed here. -/
def opUnreachable : Nat := 0x00
def opNop : Nat := 0x01
def opBlock : Nat := 0x02
def opLoop : Nat := 0x03
def opIf : Nat := 0x04
def opElse : Nat := 0x05
def opEnd : Nat := 0x0B
def opBr : Nat := 0x0C
def opBrIf : Nat := 0x0D
def opBrTable : Nat := 0x0E
def opReturn : Nat := 0x0F
def opCall : Nat := 0x10
def opCallIndirect : Nat := 0x11
def opDrop : Nat := 0x1A
def opSelect : Nat := 0x1B
def opGetLocal : Nat := 0x20
def opSetLocal : Nat := 0x21
def opTeeLocal : Nat := 0x22
def opGetGlobal : Nat := 0x23
def opSetGlobal : Nat := 0x24
def opI32Load : Nat := 0x28
def opI64Load : Nat := 0x29
def opF32Load : Nat := 0x2A
def opF64Load : Nat := 0x2B
def opI32Load8S : Nat := 0x2C
def opI32Load8U : Nat := 0x2D
def opI32Load16S : Nat := 0x2E
def opI32Load16U : Nat := 0x2F
def opI64Load8S : Nat := 0x30
def opI64Load8U : Nat := 0x31
def opI64Load16S : Nat := 0x32
def opI64Load16U : Nat := 0x33
def opI64Load32S : Nat := 0x34
def opI64Load32U : Nat := 0x35
def opI32Store : Nat := 0x36
def opI64Store : Nat := 0x37
def opF32Store : Nat := 0x38
def opF64Store : Nat := 0x39
def opI32Store8 : Nat := 0x3A
def opI32Store16 : Nat := 0x3B
def opI64Store8 : Nat := 0x3C
def opI64Store16 : Nat := 0x3D
def opI64Store32 : Nat := 0x3E
def opCurrentMemory : Nat := 0x3F
def opGrowMemory : Nat := 0x40
def opI32Const : Nat := 0x41
def opI64Const : Nat := 0x42
def opF32Const : Nat := 0x43
def opF64Const : Nat := 0x44
def opI32Add : Nat := 0x6A

/-- Modelled from the spec: `ExternalKind` lives in the absent
`WasmParser.ts`; the MVP binary format (§6.2) assigns
`Function=0, Table=1, Memory=2, Global=3`. -/
def extKindFunction : Nat := 0
def extKindTable : Nat := 1
def extKindMemory : Nat := 2
def extKindGlobal : Nat := 3

/-- Modelled from the spec: the `Type` tag enum lives in the absent
`WasmParser.ts`; the MVP binary format (§6.2, and scenario 2 which uses
`form = -0x20` and `i32 = -0x01`) assigns the signed tags below. -/
def typeTagI32 : Int := -0x01
def typeTagI64 : Int := -0x02
def typeTagF32 : Int := -0x03
def typeTagF64 : Int := -0x04
def typeTagAnyfunc : Int := -0x10
def typeTagFunc : Int := -0x20
def typeTagEmptyBlock : Int := -0x40

/-! ## Shared payload records (§3 of the spec, the `I...` interfaces of
`WasmParser.ts`) -/

structure ModuleHeader where
  magic : Nat
  version : Nat
  deriving DecidableEq

structure SectionInfo where
  id : Nat
  name : List Nat
  deriving DecidableEq

structure FunctionType where
  form : Int
  params : List Int
  returns : List Int
  deriving DecidableEq

structure ResizableLimits where
  initial : Nat
  maximum : Option Nat
  deriving DecidableEq

structure TableType where
  elementType : Int
  limits : ResizableLimits
  deriving DecidableEq

structure MemoryType where
  limits : ResizableLimits
  deriving DecidableEq

structure GlobalType where
  contentType : Int
  mutability : Nat
  deriving DecidableEq

/-- `IImportEntry`.  The source stores one union-typed `type` field and a
`funcTypeIndex`, and casts by `kind`; the shallow record carries each
possible payload as an `Option`, with the parser contract (§3: exactly the
payload dictated by `kind` is present) guaranteeing the one matching `kind`
is populated. -/
structure ImportEntry where
  module : List Nat
  field : List Nat
  kind : Nat
  funcTypeIndex : Option Nat := none
  tableType : Option TableType := none
  memoryType : Option MemoryType := none
  globalType : Option GlobalType := none
  deriving DecidableEq

structure ExportEntry where
  field : List Nat
  kind : Nat
  index : Nat
  deriving DecidableEq

structure LocalDecl where
  count : Nat
  type : Int
  deriving DecidableEq

structure FunctionInformation where
  locals : List LocalDecl
  deriving DecidableEq

structure MemoryAddress where
  flags : Nat
  offset : Nat
  deriving DecidableEq

/-- The `literal` field of `IOperatorInformation`: an `i32` value, the raw
8-byte little-endian `Int64` payload (spec §3: "opaque 8-byte little-endian
payload, treated bit-exact"), or a float given by its IEEE-754 bit
pattern. -/
inductive OpLiteral where
  | int (n : Int)
  | int64 (bytes : List Nat)
  | float (bits : Nat)
  deriving DecidableEq

/-- `IOperatorInformation`: `code` plus the optional immediates; per the
parser contract exactly the immediates dictated by `code` are present. -/
structure OperatorInfo where
  code : Nat
  blockType : Option Int := none
  brDepth : Option Nat := none
  brTable : Option (List Nat) := none
  funcIndex : Option Nat := none
  typeIndex : Option Nat := none
  localIndex : Option Nat := none
  globalIndex : Option Nat := none
  memoryAddress : Option MemoryAddress := none
  literal : Option OpLiteral := none
  deriving DecidableEq

structure DataSegment where
  index : Nat
  deriving DecidableEq

structure DataSegmentBody where
  data : List Nat
  deriving DecidableEq

structure GlobalVariable where
  type : GlobalType
  deriving DecidableEq

/-! ## Emitter (`WasmEmitter.ts`) -/

/-- `EmitterState` (`WasmEmitter.ts` lines 23-44), names kept verbatim,
including the source's `CustomSecton` spelling. -/
inductive EmitterState where
  | Initial
  | Error
  | Wasm
  | CustomSecton
  | TypeSection
  | ImportSection
  | FunctionSection
  | TableSection
  | MemorySection
  | GlobalSection
  | ExportSection
  | StartSection
  | ElementSection
  | CodeSection
  | DataSection
  | FunctionBody
  | DataSectionEntry
  | DataSectionEntryBody
  | DataSectionEntryEnd
  | InitExpression
  deriving DecidableEq

/-- The `Emitter` fields (`WasmEmitter.ts` lines 47-57).  `_data` starts as
`null`, hence `Option`. -/
structure Emitter where
  buffer : List Nat
  state : EmitterState
  sectionStart : Nat
  sectionSizeBytes : Nat
  sectionEntiesCount : Nat
  sectionEntiesCountBytes : Nat
  bodyStart : Nat
  bodySizeBytes : Nat
  data : Option (List Nat)
  endWritten : Bool
  initExpressionAfterState : EmitterState
  deriving DecidableEq

/-- The `Emitter` constructor (`WasmEmitter.ts` lines 59-71). -/
def initEmitter : Emitter :=
  { buffer := []
    state := .Initial
    sectionStart := 0
    sectionSizeBytes := 0
    sectionEntiesCount := 0
    sectionEntiesCountBytes := 0
    bodyStart := 0
    bodySizeBytes := 0
    data := none
    endWritten := false
    initExpressionAfterState := .Initial }

/-- A method result: the emitter after the call together with `none` on
normal return or `some msg` when the source method `throw`s `msg` (the
record then reflects exactly the mutations made before the throw). -/
abbrev EmResult := Emitter × Option String

/-- `writeString` (`WasmEmitter.ts` lines 194-197): varuint length prefix
followed by the raw bytes. -/
def stringBytes (s : List Nat) : List Nat := varUintBytes s.length ++ s

/-- `writeBeginWasm` (`WasmEmitter.ts` lines 222-226): requires state
`Initial`, appends the fixed magic-and-version bytes
`00 61 73 6D 01 00 00 00`, moves to `Wasm`.  The optional `header`
parameter is bound by the source but never read. -/
def writeBeginWasm (header : Option ModuleHeader) (e : Emitter) : EmResult :=
  if e.state ≠ .Initial then (e, some "Unexpected state") else
  ({ e with
      buffer := e.buffer ++ [0x00, 0x61, 0x73, 0x6d, 0x01, 0x00, 0x00, 0x00]
      state := .Wasm }, none)

/-- `writeEndWasm` (`WasmEmitter.ts` lines 228-233): requires state `Wasm`,
snapshots the buffer into `data`, clears the buffer, returns to
`Initial`. -/
def writeEndWasm (e : Emitter) : EmResult :=
  if e.state ≠ .Wasm then (e, some "Unexpected state") else
  ({ e with state := .Initial, data := some e.buffer, buffer := [] }, none)

/-- The target state of the `switch (section.id)` in `writeBeginSection`
(`WasmEmitter.ts` lines 240-279): the eight explicitly accepted section
ids and their states; every other id (including `Custom`, `Table`,
`Start`, `Element`) reaches the `default` arm. -/
def sectionTargetState (id : Nat) : Option EmitterState :=
  if id = sectionCodeType then some .TypeSection
  else if id = sectionCodeImport then some .ImportSection
  else if id = sectionCodeFunction then some .FunctionSection
  else if id = sectionCodeExport then some .ExportSection
  else if id = sectionCodeCode then some .CodeSection
  else if id = sectionCodeMemory then some .MemorySection
  else if id = sectionCodeGlobal then some .GlobalSection
  else if id = sectionCodeData then some .DataSection
  else none

/-- `writeBeginSection` (`WasmEmitter.ts` lines 235-280): requires `Wasm`;
writes the section id, reserves the 5-byte size slot (recording its
position and `sectionStart`), then switches on the id.  The eight
supported ids reserve the 5-byte entries-count slot
(`writePatchableSectionEntriesCount`, lines 184-187) and enter their
section state; `Custom` writes the section name and falls through to the
`default` arm, which sets state `Error` and throws. -/
def writeBeginSection (sec : SectionInfo) (e : Emitter) : EmResult :=
  if e.state ≠ .Wasm then (e, some "Unexpected state") else
  let e := { e with buffer := e.buffer ++ varUintBytes sec.id }
  let e := { e with
    sectionSizeBytes := e.buffer.length
    buffer := e.buffer ++ patchableVarUint32Bytes }
  let e := { e with sectionStart := e.buffer.length }
  match sectionTargetState sec.id with
  | some st =>
    let e := { e with
      sectionEntiesCountBytes := e.buffer.length
      buffer := e.buffer ++ patchableVarUint32Bytes
      sectionEntiesCount := 0 }
    ({ e with state := st }, none)
  | none =>
    let e :=
      if sec.id = sectionCodeCustom then
        { e with buffer := e.buffer ++ stringBytes sec.name }
      else e
    ({ e with state := .Error }, some "Unexpected section")

/-- `writeFuncType` (`WasmEmitter.ts` lines 282-290). -/
def funcTypeBytes (t : FunctionType) : List Nat :=
  varIntBytes t.form
    ++ varUintBytes t.params.length ++ (t.params.map varIntBytes).join
    ++ varUintBytes t.returns.length ++ (t.returns.map varIntBytes).join

/-- `writeTypeSectionEntry` (`WasmEmitter.ts` lines 292-296). -/
def writeTypeSectionEntry (t : FunctionType) (e : Emitter) : EmResult :=
  if e.state ≠ .TypeSection then (e, some "Unexpected state") else
  ({ e with
      sectionEntiesCount := e.sectionEntiesCount + 1
      buffer := e.buffer ++ funcTypeBytes t }, none)

/-- `writeResizableLimits` (`WasmEmitter.ts` lines 298-304). -/
def resizableLimitsBytes (l : ResizableLimits) : List Nat :=
  match l.maximum with
  | none => varUintBytes 0 ++ varUintBytes l.initial
  | some m => varUintBytes 1 ++ varUintBytes l.initial ++ varUintBytes m

/-- `writeTableType` (`WasmEmitter.ts` lines 306-309). -/
def tableTypeBytes (t : TableType) : List Nat :=
  varIntBytes t.elementType ++ resizableLimitsBytes t.limits

/-- `writeMemoryType` (`WasmEmitter.ts` lines 311-313). -/
def memoryTypeBytes (t : MemoryType) : List Nat := resizableLimitsBytes t.limits

/-- `writeGlobalType` (`WasmEmitter.ts` lines 315-318). -/
def globalTypeBytes (t : GlobalType) : List Nat :=
  varIntBytes t.contentType ++ varUintBytes t.mutability

/-- `writeImportSectionEntry` (`WasmEmitter.ts` lines 320-342): requires
`ImportSection`; increments the entry count, writes module, field and
kind, then the kind-specific payload; an unknown kind throws after those
writes.  The `getD` defaults are never taken under the parser contract
(the payload matching `kind` is present). -/
def writeImportSectionEntry (entry : ImportEntry) (e : Emitter) : EmResult :=
  if e.state ≠ .ImportSection then (e, some "Unexpected state") else
  let e := { e with
    sectionEntiesCount := e.sectionEntiesCount + 1
    buffer := e.buffer ++ stringBytes entry.module ++ stringBytes entry.field
      ++ [entry.kind] }
  if entry.kind = extKindFunction then
    ({ e with buffer := e.buffer ++ varUintBytes (entry.funcTypeIndex.getD 0) }, none)
  else if entry.kind = extKindTable then
    ({ e with buffer := e.buffer ++ tableTypeBytes (entry.tableType.getD ⟨0, 0, none⟩) }, none)
  else if entry.kind = extKindMemory then
    ({ e with buffer := e.buffer ++ memoryTypeBytes (entry.memoryType.getD ⟨0, none⟩) }, none)
  else if entry.kind = extKindGlobal then
    ({ e with buffer := e.buffer ++ globalTypeBytes (entry.globalType.getD ⟨0, 0⟩) }, none)
  else (e, some "Invalid import kind")

/-- `writeFunctionSectionEntry` (`WasmEmitter.ts` lines 344-348). -/
def writeFunctionSectionEntry (typeIndex : Nat) (e : Emitter) : EmResult :=
  if e.state ≠ .FunctionSection then (e, some "Unexpected state") else
  ({ e with
      sectionEntiesCount := e.sectionEntiesCount + 1
      buffer := e.buffer ++ varUintBytes typeIndex }, none)

/-- `writeExportSectionEntry` (`WasmEmitter.ts` lines 350-356). -/
def writeExportSectionEntry (entry : ExportEntry) (e : Emitter) : EmResult :=
  if e.state ≠ .ExportSection then (e, some "Unexpected state") else
  ({ e with
      sectionEntiesCount := e.sectionEntiesCount + 1
      buffer := e.buffer ++ stringBytes entry.field ++ [entry.kind]
        ++ varUintBytes entry.index }, none)

/-- `writeBeginFunctionBody` (`WasmEmitter.ts` lines 358-370): requires
`CodeSection`; counts the entry, reserves the 5-byte body-size slot,
records `bodyStart`, clears `endWritten`, enters `FunctionBody` and writes
the locals declarations. -/
def writeBeginFunctionBody (fi : FunctionInformation) (e : Emitter) : EmResult :=
  if e.state ≠ .CodeSection then (e, some "Unexpected state") else
  let e := { e with sectionEntiesCount := e.sectionEntiesCount + 1 }
  let e := { e with
    bodySizeBytes := e.buffer.length
    buffer := e.buffer ++ patchableVarUint32Bytes }
  let e := { e with
    bodyStart := e.buffer.length
    endWritten := false
    state := .FunctionBody }
  ({ e with
      buffer := e.buffer ++ varUintBytes fi.locals.length
        ++ (fi.locals.map (fun l => varUintBytes l.count ++ varIntBytes l.type)).join },
   none)

/-- `writeEndFunctionBody` (`WasmEmitter.ts` lines 372-378): requires
`FunctionBody` and `endWritten`; patches the body-size slot with
`position - bodyStart` and returns to `CodeSection`. -/
def writeEndFunctionBody (e : Emitter) : EmResult :=
  if e.state ≠ .FunctionBody then (e, some "Unexpected state") else
  if ¬ e.endWritten then (e, some "End as a last written operator is expected.") else
  ({ e with
      buffer := patchVarUint32 e.buffer e.bodySizeBytes (e.buffer.length - e.bodyStart)
      state := .CodeSection }, none)

/-- `writeBeginDataSectionEntry` (`WasmEmitter.ts` lines 380-385). -/
def writeBeginDataSectionEntry (entry : DataSegment) (e : Emitter) : EmResult :=
  if e.state ≠ .DataSection then (e, some "Unexpected state") else
  ({ e with
      sectionEntiesCount := e.sectionEntiesCount + 1
      buffer := e.buffer ++ varUintBytes entry.index
      state := .DataSectionEntry }, none)

/-- `writeDataSectionBody` (`WasmEmitter.ts` lines 387-391). -/
def writeDataSectionBody (body : DataSegmentBody) (e : Emitter) : EmResult :=
  if e.state ≠ .DataSectionEntryBody then (e, some "Unexpected state") else
  ({ e with
      buffer := e.buffer ++ stringBytes body.data
      state := .DataSectionEntryEnd }, none)

/-- `writeEndDataSectionEntry` (`WasmEmitter.ts` lines 393-396). -/
def writeEndDataSectionEntry (e : Emitter) : EmResult :=
  if e.state ≠ .DataSectionEntryEnd then (e, some "Unexpected state") else
  ({ e with state := .DataSection }, none)

/-- `writeBeginInitExpression` (`WasmEmitter.ts` lines 398-408): only legal
from `DataSectionEntry`; records the follow-up state, clears `endWritten`
and enters `InitExpression`. -/
def writeBeginInitExpression (e : Emitter) : EmResult :=
  if e.state ≠ .DataSectionEntry then (e, some "Unexpected state") else
  ({ e with
      initExpressionAfterState := .DataSectionEntryBody
      endWritten := false
      state := .InitExpression }, none)

/-- `writeEndInitExpression` (`WasmEmitter.ts` lines 410-414): requires
`InitExpression` and `endWritten`; restores `initExpressionAfterState`. -/
def writeEndInitExpression (e : Emitter) : EmResult :=
  if e.state ≠ .InitExpression then (e, some "Unexpected state") else
  if ¬ e.endWritten then (e, some "End as a last written operator is expected.") else
  ({ e with state := e.initExpressionAfterState }, none)

/-- `writeMemoryImmediate` (`WasmEmitter.ts` lines 416-419). -/
def memoryImmediateBytes (a : MemoryAddress) : List Nat :=
  varUintBytes a.flags ++ varUintBytes a.offset

/-- `writeFloat32` (`WasmEmitter.ts` lines 425-429).  The source allocates
a zero-filled `Uint8Array(4)`, calls `DataView.getFloat32(0, true)` — a
*read*, whose result is discarded — and never stores the argument `n`, then
appends the buffer: the emitted bytes are `00 00 00 00` for every `n`. -/
def writeFloat32Bytes (n : Nat) : List Nat := [0, 0, 0, 0]

/-- `writeFloat64` (`WasmEmitter.ts` lines 431-435): same slip as
`writeFloat32` with `getFloat64`; emits eight zero bytes for every `n`. -/
def writeFloat64Bytes (n : Nat) : List Nat := [0, 0, 0, 0, 0, 0, 0, 0]

/-- `n | 0` in the source (`WasmEmitter.ts` line 504): JavaScript `ToInt32`
truncation. -/
def jsToInt32 (n : Int) : Int := Int.emod (n + 2 ^ 31) (2 ^ 32) - 2 ^ 31

/-- The immediate bytes of the `switch (opInfo.code)` of `writeOperator`
(`WasmEmitter.ts` lines 441-515); every arm only appends bytes, so the
switch is rendered as a byte-list producer.  The `getD` defaults are never
taken under the parser contract (the immediate dictated by `code` is
present); in particular `brTable` is present and non-empty for `br_table`
(the source would compute `-1 >>> 0` for an empty table where `Nat`
subtraction yields `0`). -/
def operatorImmediates (op : OperatorInfo) : List Nat :=
  if op.code = opBlock ∨ op.code = opLoop ∨ op.code = opIf then
    varIntBytes (op.blockType.getD 0)
  else if op.code = opBr ∨ op.code = opBrIf then
    varUintBytes (op.brDepth.getD 0)
  else if op.code = opBrTable then
    let brTable := op.brTable.getD []
    varUintBytes (brTable.length - 1) ++ (brTable.map varUintBytes).join
  else if op.code = opCall then
    varUintBytes (op.funcIndex.getD 0)
  else if op.code = opCallIndirect then
    varUintBytes (op.typeIndex.getD 0) ++ varUintBytes 0
  else if op.code = opGetLocal ∨ op.code = opSetLocal ∨ op.code = opTeeLocal then
    varUintBytes (op.localIndex.getD 0)
  else if op.code = opGetGlobal ∨ op.code = opSetGlobal then
    varUintBytes (op.globalIndex.getD 0)
  else if (opI32Load ≤ op.code ∧ op.code ≤ opI64Store32) then
    -- the 23 memory-access opcodes 0x28-0x3E listed one by one in the source
    memoryImmediateBytes (op.memoryAddress.getD ⟨0, 0⟩)
  else if op.code = opCurrentMemory ∨ op.code = opGrowMemory then
    varUintBytes 0
  else if op.code = opI32Const then
    match op.literal with
    | some (.int n) => varIntBytes (jsToInt32 n)
    | _ => varIntBytes 0
  else if op.code = opI64Const then
    match op.literal with
    | some (.int64 bytes) => bytes.take 8   -- writeVarInt64: the 8 raw bytes
    | _ => []
  else if op.code = opF32Const then
    match op.literal with
    | some (.float bits) => writeFloat32Bytes bits
    | _ => writeFloat32Bytes 0
  else if op.code = opF64Const then
    match op.literal with
    | some (.float bits) => writeFloat64Bytes bits
    | _ => writeFloat64Bytes 0
  else []

/-- `writeOperator` (`WasmEmitter.ts` lines 437-516): requires
`FunctionBody` or `InitExpression`; writes the opcode byte, records
`endWritten = (code == end)`, then the immediates. -/
def writeOperator (op : OperatorInfo) (e : Emitter) : EmResult :=
  if e.state ≠ .FunctionBody ∧ e.state ≠ .InitExpression then
    (e, some "Unexpected state")
  else
    ({ e with
        buffer := e.buffer ++ op.code :: operatorImmediates op
        endWritten := op.code = opEnd }, none)

/-- `writeMemorySectionEntry` (`WasmEmitter.ts` lines 518-522). -/
def writeMemorySectionEntry (entry : MemoryType) (e : Emitter) : EmResult :=
  if e.state ≠ .MemorySection then (e, some "Unexpected state") else
  ({ e with
      sectionEntiesCount := e.sectionEntiesCount + 1
      buffer := e.buffer ++ memoryTypeBytes entry }, none)

/-- Whether the state is one of the eight accepted by the `switch` of
`writeEndSection` (`WasmEmitter.ts` lines 525-533). -/
def isOpenSectionState (s : EmitterState) : Bool :=
  match s with
  | .TypeSection | .ImportSection | .FunctionSection | .ExportSection
  | .CodeSection | .MemorySection | .GlobalSection | .DataSection => true
  | _ => false

/-- `writeEndSection` (`WasmEmitter.ts` lines 524-542): in a section state
it patches the entries-count slot, then patches the size slot with
`position - sectionStart`, and returns to `Wasm`; any other state
throws. -/
def writeEndSection (e : Emitter) : EmResult :=
  if ¬ isOpenSectionState e.state then (e, some "Unexpected state") else
  let e := { e with
    buffer := patchVarUint32 e.buffer e.sectionEntiesCountBytes e.sectionEntiesCount }
  let e := { e with
    buffer := patchVarUint32 e.buffer e.sectionSizeBytes
      (e.buffer.length - e.sectionStart) }
  ({ e with state := .Wasm }, none)

/-! ## Event stream and driver (`writeStateAndResult`, `WasmEmitter.ts`
lines 85-142) -/

/-- The reader events the emitter dispatches on, each with the payload the
corresponding handler casts `result` to.  `INIT_EXPRESSION_OPERATOR` and
`CODE_OPERATOR` share one constructor, exactly as they share one `case`. -/
inductive Event where
  | beginWasm (header : Option ModuleHeader)
  | endWasm
  | beginSection (sec : SectionInfo)
  | endSection
  | typeSectionEntry (t : FunctionType)
  | importSectionEntry (entry : ImportEntry)
  | functionSectionEntry (typeIndex : Nat)
  | exportSectionEntry (entry : ExportEntry)
  | beginFunctionBody (fi : FunctionInformation)
  | endFunctionBody
  | memorySectionEntry (entry : MemoryType)
  | operator (op : OperatorInfo)
  | beginDataSectionEntry (entry : DataSegment)
  | dataSectionBody (body : DataSegmentBody)
  | endDataSectionEntry
  | beginInitExpression
  | endInitExpression
  deriving DecidableEq

/-- `writeStateAndResult` (`WasmEmitter.ts` lines 85-142): dispatch an
event to its handler. -/
def emitStep (e : Emitter) (ev : Event) : EmResult :=
  match ev with
  | .beginWasm header => writeBeginWasm header e
  | .endWasm => writeEndWasm e
  | .beginSection sec => writeBeginSection sec e
  | .endSection => writeEndSection e
  | .typeSectionEntry t => writeTypeSectionEntry t e
  | .importSectionEntry entry => writeImportSectionEntry entry e
  | .functionSectionEntry typeIndex => writeFunctionSectionEntry typeIndex e
  | .exportSectionEntry entry => writeExportSectionEntry entry e
  | .beginFunctionBody fi => writeBeginFunctionBody fi e
  | .endFunctionBody => writeEndFunctionBody e
  | .memorySectionEntry entry => writeMemorySectionEntry entry e
  | .operator op => writeOperator op e
  | .beginDataSectionEntry entry => writeBeginDataSectionEntry entry e
  | .dataSectionBody body => writeDataSectionBody body e
  | .endDataSectionEntry => writeEndDataSectionEntry e
  | .beginInitExpression => writeBeginInitExpression e
  | .endInitExpression => writeEndInitExpression e

/-- Feed a list of events to the emitter, stopping at the first thrown
error. -/
def emitRun (e : Emitter) : List Event → EmResult
  | [] => (e, none)
  | ev :: rest =>
    match emitStep e ev with
    | (e', none) => emitRun e' rest
    | (e', some msg) => (e', some msg)

/-- The events that increment `_sectionEntiesCount`: section entries,
function-body begins and data-entry begins. -/
def isEntryEvent : Event → Bool
  | .typeSectionEntry _ | .importSectionEntry _ | .functionSectionEntry _
  | .exportSectionEntry _ | .memorySectionEntry _ | .beginFunctionBody _
  | .beginDataSectionEntry _ => true
  | _ => false

/-- The events that may occur strictly between a `BeginSection` and its
`EndSection` (everything except the module / section brackets). -/
def isIntraSectionEvent : Event → Bool
  | .beginWasm _ | .endWasm | .beginSection _ | .endSection => false
  | _ => true

/-- Number of entry events in a list. -/
def countEntries (evs : List Event) : Nat := (evs.filter isEntryEvent).length

/-! ## Disassembler (`WasmDis.ts`) -/

/-- Lower-case hexadecimal rendering, as JavaScript `toString(16)`. -/
def hexString (n : Nat) : String := String.mk (Nat.toDigits 16 n)

/-- `binToString`'s per-byte escaping (`WasmDis.ts` lines 22-34): bytes
below `0x20`, at or above `0x7F`, the quote `0x22` and the backslash
`0x5c` print as a backslash and two hex digits, everything else as its
ASCII character. -/
def escapeByte (b : Nat) : String :=
  if b < 0x20 ∨ b ≥ 0x7F ∨ b = 0x22 ∨ b = 0x5c then
    "\\" ++ String.mk [Nat.digitChar (b / 16), Nat.digitChar (b % 16)]
  else String.singleton (Char.ofNat b)

/-- `binToString` (`WasmDis.ts` lines 22-34). -/
def binToString (bs : List Nat) : String := String.join (bs.map escapeByte)

/-- `typeToString` (`WasmDis.ts` lines 35-44); unknown tags throw. -/
def typeToString (t : Int) : Except String String :=
  if t = typeTagI32 then .ok "i32"
  else if t = typeTagI64 then .ok "i64"
  else if t = typeTagF32 then .ok "f32"
  else if t = typeTagF64 then .ok "f64"
  else if t = typeTagAnyfunc then .ok "anyfunc"
  else .error "Unexpected type"

/-- Modelled from the spec: the finite-value branch of `formatFloat32/64`
returns `n.toString()`, JavaScript's shortest round-trip decimal rendering
of a double (spec §4.5 "decimal round-trip of the value").  That
double-to-decimal conversion is floating-point-specific and is abstracted
here as a tagged rendering of the raw IEEE bits; no claim depends on it. -/
def jsFiniteFloatText (bits : Nat) : String := "float:0x" ++ hexString bits

/-- `formatFloat32` (`WasmDis.ts` lines 45-62), expressed on the IEEE-754
bit pattern of the value: the source's `n === 0` / `1/n < 0` / `isFinite` /
`isNaN` tests and its `DataView` reinterpretation correspond to the sign,
exponent and mantissa fields used here (`data > 0` on a NaN is exactly
"sign bit clear"). -/
def formatFloat32 (bits : Nat) : String :=
  let sign := bits / 2 ^ 31 % 2
  let expo := bits / 2 ^ 23 % 2 ^ 8
  let payload := bits % 2 ^ 23
  if expo = 0 ∧ payload = 0 then (if sign = 1 then "-0.0" else "0.0")
  else if expo ≠ 0xFF then jsFiniteFloatText bits
  else if payload = 0 then (if sign = 1 then "-infinity" else "infinity")
  else if sign = 0 ∧ payload = 0x400000 then "nan"
  else if payload = 0x400000 then "-nan"
  else (if sign = 1 then "-" else "+") ++ "nan:0x" ++ hexString payload

/-- `formatFloat64` (`WasmDis.ts` lines 64-82), on the 64-bit pattern; the
canonical payload is `0x8000000000000` and `data2 > 0` on a NaN is "sign
bit clear". -/
def formatFloat64 (bits : Nat) : String :=
  let sign := bits / 2 ^ 63 % 2
  let expo := bits / 2 ^ 52 % 2 ^ 11
  let payload := bits % 2 ^ 52
  if expo = 0 ∧ payload = 0 then (if sign = 1 then "-0.0" else "0.0")
  else if expo ≠ 0x7FF then jsFiniteFloatText bits
  else if payload = 0 then (if sign = 1 then "-infinity" else "infinity")
  else if sign = 0 ∧ payload = 0x8000000000000 then "nan"
  else if payload = 0x8000000000000 then "-nan"
  else (if sign = 1 then "-" else "+") ++ "nan:0x" ++ hexString payload

/-- The `switch (code)` computing `defaultAlignFlags` in
`memoryAddressToString` (`WasmDis.ts` lines 85-114).  Only the integer
loads and stores appear in the source switch; for every other opcode
(including `f32`/`f64` loads and stores) the variable stays `undefined`,
modelled as `none`. -/
def defaultAlignFlags (code : Nat) : Option Nat :=
  if code = opI64Load ∨ code = opI64Store then some 3
  else if code = opI32Load ∨ code = opI64Load32S ∨ code = opI64Load32U
      ∨ code = opI32Store ∨ code = opI64Store32 then some 2
  else if code = opI32Load16S ∨ code = opI32Load16U ∨ code = opI64Load16S
      ∨ code = opI64Load16U ∨ code = opI32Store16 ∨ code = opI64Store16 then some 1
  else if code = opI32Load8S ∨ code = opI32Load8U ∨ code = opI64Load8S
      ∨ code = opI64Load8U ∨ code = opI32Store8 ∨ code = opI64Store8 then some 0
  else none

/-- `memoryAddressToString` (`WasmDis.ts` lines 84-120).  The source's
`address.flags == defaultAlignFlags` is false whenever the default is
`undefined`; `1 << address.flags` is `2 ^ flags` for the in-contract flag
values. -/
def memoryAddressToString (address : MemoryAddress) (code : Nat) : String :=
  if defaultAlignFlags code = some address.flags then
    "offset=" ++ toString address.offset
  else if address.offset = 0 then
    "align=" ++ toString (2 ^ address.flags)
  else
    "offset=" ++ toString address.offset ++ " align=" ++ toString (2 ^ address.flags)

/-- `globalTypeToString` (`WasmDis.ts` lines 121-125). -/
def globalTypeToString (t : GlobalType) : Except String String := do
  let ts ← typeToString t.contentType
  if t.mutability = 0 then pure ts else pure ("(mut " ++ ts ++ ")")

/-- `limitsToString` (`WasmDis.ts` lines 126-128). -/
def limitsToString (l : ResizableLimits) : String :=
  toString l.initial ++ (match l.maximum with
    | some m => " " ++ toString m
    | none => "")

/-- Modelled from the spec: the `OperatorCodeNames` table lives in the
absent `WasmParser.ts`; §4.5 describes it as "a table of operator names"
with underscore-separated MVP mnemonics (`i32_add`, `i32_trunc_s_f32`,
...).  The entries for the opcodes whose constants are defined above are
listed; an opcode outside the table yields `undefined` in the source
(`none` here), on which the subsequent `.replace` would throw. -/
def operatorName (code : Nat) : Option String :=
  if code = opUnreachable then some "unreachable"
  else if code = opNop then some "nop"
  else if code = opBlock then some "block"
  else if code = opLoop then some "loop"
  else if code = opIf then some "if"
  else if code = opElse then some "else"
  else if code = opEnd then some "end"
  else if code = opBr then some "br"
  else if code = opBrIf then some "br_if"
  else if code = opBrTable then some "br_table"
  else if code = opReturn then some "return"
  else if code = opCall then some "call"
  else if code = opCallIndirect then some "call_indirect"
  else if code = opDrop then some "drop"
  else if code = opSelect then some "select"
  else if code = opGetLocal then some "get_local"
  else if code = opSetLocal then some "set_local"
  else if code = opTeeLocal then some "tee_local"
  else if code = opGetGlobal then some "get_global"
  else if code = opSetGlobal then some "set_global"
  else if code = opI32Load then some "i32_load"
  else if code = opI64Load then some "i64_load"
  else if code = opF32Load then some "f32_load"
  else if code = opF64Load then some "f64_load"
  else if code = opI32Load8S then some "i32_load8_s"
  else if code = opI32Load8U then some "i32_load8_u"
  else if code = opI32Load16S then some "i32_load16_s"
  else if code = opI32Load16U then some "i32_load16_u"
  else if code = opI64Load8S then some "i64_load8_s"
  else if code = opI64Load8U then some "i64_load8_u"
  else if code = opI64Load16S then some "i64_load16_s"
  else if code = opI64Load16U then some "i64_load16_u"
  else if code = opI64Load32S then some "i64_load32_s"
  else if code = opI64Load32U then some "i64_load32_u"
  else if code = opI32Store then some "i32_store"
  else if code = opI64Store then some "i64_store"
  else if code = opF32Store then some "f32_store"
  else if code = opF64Store then some "f64_store"
  else if code = opI32Store8 then some "i32_store8"
  else if code = opI32Store16 then some "i32_store16"
  else if code = opI64Store8 then some "i64_store8"
  else if code = opI64Store16 then some "i64_store16"
  else if code = opI64Store32 then some "i64_store32"
  else if code = opCurrentMemory then some "current_memory"
  else if code = opGrowMemory then some "grow_memory"
  else if code = opI32Const then some "i32_const"
  else if code = opI64Const then some "i64_const"
  else if code = opF32Const then some "f32_const"
  else if code = opF64Const then some "f64_const"
  else if code = opI32Add then some "i32_add"
  else none

/-- The `replace(/^([if](32|64))_/, "$1.")` step of operator-name printing
(`WasmDis.ts` line 353). -/
def opNameDots (s : String) : String :=
  if s.startsWith "i32_" ∨ s.startsWith "i64_"
      ∨ s.startsWith "f32_" ∨ s.startsWith "f64_" then
    s.take 3 ++ "." ++ s.drop 4
  else s

/-- The `replace(/_([if](32|64))$/, "\/$1")` step of operator-name
printing (`WasmDis.ts` line 353). -/
def opNameSlash (s : String) : String :=
  if s.endsWith "_i32" ∨ s.endsWith "_i64"
      ∨ s.endsWith "_f32" ∨ s.endsWith "_f64" then
    s.dropRight 4 ++ "/" ++ s.takeRight 3
  else s

/-- Modelled from the spec: `Int64.toDouble` lives in the absent
`WasmParser.ts`; §3 fixes `Int64` as an "opaque 8-byte little-endian
payload, treated bit-exact".  The two's-complement value of the payload is
computed exactly; the `toDouble` rounding beyond `2^53` is not modelled
(no claim depends on it). -/
def int64LEValue (bytes : List Nat) : Int :=
  let u : Nat := (List.range 8).foldl
    (fun acc i => acc + (bytes[i]?).getD 0 % 256 * 256 ^ i) 0
  if u < 2 ^ 63 then (u : Int) else (u : Int) - 2 ^ 64

/-- Contract accessors for `OpLiteral` (the parser supplies the variant
matching the opcode; the fallback arms are never taken in contract). -/
def OpLiteral.intVal : OpLiteral → Int
  | .int n => n
  | _ => 0

def OpLiteral.floatBits : OpLiteral → Nat
  | .float b => b
  | _ => 0

def OpLiteral.int64Payload : OpLiteral → List Nat
  | .int64 bs => bs
  | _ => []

/-- The literal fragments pushed by the `operator.literal !== undefined`
block (`WasmDis.ts` lines 368-383). -/
def literalFrags (op : OperatorInfo) : List String :=
  match op.literal with
  | none => []
  | some lit =>
    if op.code = opI32Const then [" " ++ toString lit.intVal]
    else if op.code = opF32Const then [" " ++ formatFloat32 lit.floatBits]
    else if op.code = opF64Const then [" " ++ formatFloat64 lit.floatBits]
    else if op.code = opI64Const then [" " ++ toString (int64LEValue lit.int64Payload)]
    else []

/-- The `WasmDisassembler` fields (`WasmDis.ts` lines 130-150).  Source
initializes `_indent` to `null` and always assigns it (`"    "` or
`"      "`) before use; it is modelled as a `String` starting empty.
`_indentLevel` is a JavaScript number that the source can decrement below
zero on malformed streams, hence `Int`. -/
structure DisState where
  buffer : List String
  types : List FunctionType
  funcIndex : Nat
  funcTypes : List Nat
  importCount : Nat
  globalCount : Nat
  tableCount : Nat
  indent : String
  indentLevel : Int
  deriving DecidableEq

/-- The `WasmDisassembler` constructor (`WasmDis.ts` lines 140-150). -/
def initDisasm : DisState :=
  { buffer := []
    types := []
    funcIndex := 0
    funcTypes := []
    importCount := 0
    globalCount := 0
    tableCount := 0
    indent := ""
    indentLevel := 0 }

/-- `printFuncType` (`WasmDis.ts` lines 157-172). -/
def printFuncType (t : FunctionType) (printVars : Bool) : Except String String := do
  let paramPart ←
    if printVars then do
      let parts ← t.params.enum.mapM fun p => do
        let s ← typeToString p.2
        pure (" (param $var" ++ toString p.1 ++ " " ++ s ++ ")")
      pure (String.join parts)
    else if t.params.length > 0 then do
      let parts ← t.params.mapM fun p => do
        let s ← typeToString p
        pure (" " ++ s)
      pure (" (param" ++ String.join parts ++ ")")
    else pure ""
  let retParts ← t.returns.mapM fun r => do
    let s ← typeToString r
    pure (" (result " ++ s ++ ")")
  pure (paramPart ++ String.join retParts)

/-- `printType` (`WasmDis.ts` lines 151-156): looks the index up in the
type table (an out-of-range index is `undefined` in the source and makes
the `type.form` access throw), requires the `func` form. -/
def printType (types : List FunctionType) (typeIndex : Nat) : Except String String :=
  match types[typeIndex]? with
  | none => .error "TypeError: type is undefined"
  | some t =>
    if t.form ≠ typeTagFunc then .error "NYI other function form"
    else do
      let s ← printFuncType t false
      pure ("(func" ++ s ++ ")")

/-- Local-declaration fragments of `BEGIN_FUNCTION_BODY`
(`WasmDis.ts` lines 330-335): each declared slot expanded per `count`,
`$var` indices continuing from `k`. -/
def localFrags (locals : List LocalDecl) (k : Nat) : Except String (List String) :=
  match locals with
  | [] => .ok []
  | l :: rest => do
    let ts ← typeToString l.type
    let tail ← localFrags rest (k + l.count)
    .ok ((List.range l.count).map
      (fun i => "    (local $var" ++ toString (k + i) ++ " " ++ ts ++ ")\n") ++ tail)

/-- The reader states dispatched by the `switch (reader.state)` of
`disassemble` (`WasmDis.ts` lines 185-412), with the payloads the handlers
cast `reader.result` to.  `END_WASM` carries the value
`reader.hasMoreBytes()` observed at that point; `error` carries
`reader.error`; `INIT_EXPRESSION_OPERATOR` and `CODE_OPERATOR` share one
constructor, as they share one `case`. -/
inductive DisEvent where
  | endWasm (hasMoreBytes : Bool)
  | error (msg : String)
  | beginWasm
  | endSection
  | beginSection (info : SectionInfo)
  | memorySectionEntry (m : MemoryType)
  | tableSectionEntry (t : TableType)
  | exportSectionEntry (entry : ExportEntry)
  | importSectionEntry (entry : ImportEntry)
  | beginElementSectionEntry
  | endElementSectionEntry
  | elementSectionEntryBody (elements : List Nat)
  | beginGlobalSectionEntry (g : GlobalVariable)
  | endGlobalSectionEntry
  | typeSectionEntry (t : FunctionType)
  | beginDataSectionEntry
  | dataSectionEntryBody (data : List Nat)
  | endDataSectionEntry
  | beginInitExpressionBody
  | endInitExpressionBody
  | functionSectionEntry (typeIndex : Nat)
  | beginFunctionBody (fi : FunctionInformation)
  | operator (op : OperatorInfo)
  | endFunctionBody
  deriving DecidableEq

/-- Result of processing one reader event inside the `disassemble` loop:
keep looping, return a finished string, or propagate a thrown error. -/
inductive DisStep where
  | cont (d : DisState)
  | done (output : String) (d : DisState)
  | fail (msg : String)
  deriving DecidableEq

/-- One iteration of the `disassemble` loop body
(`WasmDis.ts` lines 185-412). -/
def disasmStep (d : DisState) (ev : DisEvent) : DisStep :=
  match ev with
  | .endWasm hasMoreBytes =>
    let d := { d with buffer := d.buffer ++ [")\n"] }
    if ¬ hasMoreBytes then .done (String.join d.buffer) { d with buffer := [] }
    else .cont d
  | .error msg => .fail msg
  | .beginWasm => .cont { d with buffer := d.buffer ++ ["(module\n"] }
  | .endSection => .cont d
  | .beginSection _ =>
    -- known ids just continue; unknown ids call `reader.skipSection()`,
    -- an effect on the reader, not on the disassembler state
    .cont d
  | .memorySectionEntry m =>
    .cont { d with buffer := d.buffer
      ++ ["  (memory " ++ toString m.limits.initial]
      ++ (match m.limits.maximum with
          | some mx => [" " ++ toString mx]
          | none => [])
      ++ [")\n"] }
  | .tableSectionEntry t =>
    match typeToString t.elementType with
    | .error msg => .fail msg
    | .ok ts =>
      .cont { d with
        buffer := d.buffer ++ ["  (table $table" ++ toString d.tableCount ++ " "
          ++ limitsToString t.limits ++ " " ++ ts ++ ")\n"]
        tableCount := d.tableCount + 1 }
  | .exportSectionEntry entry =>
    let d := { d with buffer := d.buffer
      ++ ["  (export \"" ++ binToString entry.field ++ "\" "] }
    if entry.kind = extKindFunction then
      .cont { d with buffer := d.buffer ++ ["$func" ++ toString entry.index] ++ [")\n"] }
    else if entry.kind = extKindTable then
      .cont { d with buffer := d.buffer
        ++ ["(table $table" ++ toString entry.index ++ ")"] ++ [")\n"] }
    else if entry.kind = extKindMemory then
      .cont { d with buffer := d.buffer ++ ["memory"] ++ [")\n"] }
    else if entry.kind = extKindGlobal then
      .cont { d with buffer := d.buffer
        ++ ["(global $global" ++ toString entry.index ++ ")"] ++ [")\n"] }
    else .fail "Unsupported export"
  | .importSectionEntry entry =>
    let importSource := "\"" ++ binToString entry.module ++ "\" \""
      ++ binToString entry.field ++ "\""
    if entry.kind = extKindFunction then
      match printType d.types (entry.funcTypeIndex.getD 0) with
      | .error msg => .fail msg
      | .ok ts =>
        .cont { d with
          buffer := d.buffer ++ ["  (import $func" ++ toString d.importCount ++ " "
            ++ importSource ++ " " ++ ts ++ ")\n"]
          importCount := d.importCount + 1 }
    else if entry.kind = extKindTable then
      let t := entry.tableType.getD ⟨0, 0, none⟩
      match typeToString t.elementType with
      | .error msg => .fail msg
      | .ok ts =>
        .cont { d with
          buffer := d.buffer ++ ["  (import " ++ importSource ++ " (table $table"
            ++ toString d.tableCount ++ " " ++ limitsToString t.limits ++ " "
            ++ ts ++ "))\n"]
          tableCount := d.tableCount + 1 }
    else if entry.kind = extKindMemory then
      let m := entry.memoryType.getD ⟨⟨0, none⟩⟩
      .cont { d with buffer := d.buffer
        ++ ["  (import " ++ importSource ++ " (memory "
          ++ limitsToString m.limits ++ "))\n"] }
    else if entry.kind = extKindGlobal then
      let g := entry.globalType.getD ⟨0, 0⟩
      match globalTypeToString g with
      | .error msg => .fail msg
      | .ok gs =>
        .cont { d with
          buffer := d.buffer ++ ["  (import " ++ importSource ++ " (global $global"
            ++ toString d.globalCount ++ " " ++ gs ++ "))\n"]
          globalCount := d.globalCount + 1 }
    else .fail "NYI other import types"
  | .beginElementSectionEntry =>
    .cont { d with buffer := d.buffer ++ ["  (elem\n"] }
  | .endElementSectionEntry =>
    .cont { d with buffer := d.buffer ++ ["  )\n"] }
  | .elementSectionEntryBody elements =>
    .cont { d with buffer := d.buffer ++ ["   "]
      ++ elements.map (fun funcIndex => " $func" ++ toString funcIndex)
      ++ ["\n"] }
  | .beginGlobalSectionEntry g =>
    match globalTypeToString g.type with
    | .error msg => .fail msg
    | .ok gs =>
      .cont { d with
        buffer := d.buffer
          ++ ["  (global $global" ++ toString d.globalCount ++ " " ++ gs ++ "\n"]
        globalCount := d.globalCount + 1 }
  | .endGlobalSectionEntry =>
    .cont { d with buffer := d.buffer ++ ["  )\n"] }
  | .typeSectionEntry t =>
    let typeIndex := d.types.length
    let types := d.types ++ [t]
    match printType types typeIndex with
    | .error msg => .fail msg
    | .ok ts =>
      .cont { d with
        types := types
        buffer := d.buffer
          ++ ["  (type $type" ++ toString typeIndex ++ " " ++ ts ++ ")\n"] }
  | .beginDataSectionEntry =>
    .cont { d with buffer := d.buffer ++ ["  (data\n"] }
  | .dataSectionEntryBody data =>
    .cont { d with buffer := d.buffer
      ++ ["    \"" ++ binToString data ++ "\"\n"] }
  | .endDataSectionEntry =>
    .cont { d with buffer := d.buffer ++ ["  )\n"] }
  | .beginInitExpressionBody =>
    .cont { d with
      indent := "      "
      indentLevel := 0
      buffer := d.buffer ++ ["    (\n"] }
  | .endInitExpressionBody =>
    .cont { d with buffer := d.buffer ++ ["    )\n"] }
  | .functionSectionEntry typeIndex =>
    .cont { d with funcTypes := d.funcTypes ++ [typeIndex] }
  | .beginFunctionBody fi =>
    -- `this._types[this._funcTypes[this._funcIndex]]`: an out-of-range
    -- lookup is `undefined` and makes `printFuncType` throw in the source
    match d.funcTypes[d.funcIndex]? with
    | none => .fail "TypeError: type is undefined"
    | some ti =>
      match d.types[ti]? with
      | none => .fail "TypeError: type is undefined"
      | some type =>
        match printFuncType type true with
        | .error msg => .fail msg
        | .ok sig =>
          match localFrags fi.locals type.params.length with
          | .error msg => .fail msg
          | .ok locFrags =>
            .cont { d with
              buffer := d.buffer
                ++ ["  (func $func" ++ toString (d.funcIndex + d.importCount)
                  ++ sig ++ "\n"]
                ++ locFrags
              funcIndex := d.funcIndex + 1
              indent := "    "
              indentLevel := 0 }
  | .operator op =>
    if op.code = opEnd ∧ d.indentLevel = 0 then
      -- reached the end of the function, skipping the operator
      .cont d
    else
      let d := if op.code = opEnd ∨ op.code = opElse then
          { d with indent := d.indent.dropRight 2, indentLevel := d.indentLevel - 1 }
        else d
      match operatorName op.code with
      | none => .fail "TypeError: name is undefined"
      | some name0 =>
        let str := opNameSlash (opNameDots name0)
        let strE : Except String String :=
          match op.blockType with
          | some bt =>
            if bt ≠ typeTagEmptyBlock then do
              let ts ← typeToString bt
              pure (str ++ " " ++ ts)
            else pure str
          | none => pure str
        match strE with
        | .error msg => .fail msg
        | .ok str =>
          let frags := [d.indent, str]
            ++ (match op.localIndex with
                | some k => [" $var" ++ toString k] | none => [])
            ++ (match op.funcIndex with
                | some k => [" $func" ++ toString k] | none => [])
            ++ (match op.typeIndex with
                | some k => [" $type" ++ toString k] | none => [])
            ++ literalFrags op
            ++ (match op.memoryAddress with
                | some a => [" " ++ memoryAddressToString a op.code] | none => [])
            ++ (match op.brDepth with
                | some k => [" " ++ toString k] | none => [])
            ++ (match op.brTable with
                | some ts => ts.map (fun t => " " ++ toString t) | none => [])
            ++ (match op.globalIndex with
                | some k => [" $global" ++ toString k] | none => [])
            ++ ["\n"]
          let d := { d with buffer := d.buffer ++ frags }
          let d := if op.code = opIf ∨ op.code = opBlock
              ∨ op.code = opLoop ∨ op.code = opElse then
              { d with indent := d.indent ++ "  ", indentLevel := d.indentLevel + 1 }
            else d
          .cont d
  | .endFunctionBody =>
    .cont { d with buffer := d.buffer ++ ["  )\n"] }

/-- `disassemble` (`WasmDis.ts` lines 181-414): pull events until
`reader.read()` returns `false` (the event list is exhausted — result
`none`, accumulated state retained), a final `END_WASM` returns the joined
text, or an error is thrown. -/
def disasmRun (d : DisState) : List DisEvent → Except String (Option String × DisState)
  | [] => .ok (none, d)
  | ev :: rest =>
    match disasmStep d ev with
    | .cont d' => disasmRun d' rest
    | .done out d' => .ok (some out, d')
    | .fail msg => .error msg

/-! ## Helper lemmas about back-patching -/

lemma byteAt_patch_out (buf : List Nat) (q n i : Nat) (h : i < q ∨ q + 5 ≤ i) :
    byteAt (patchVarUint32 buf q n) i = byteAt buf i := by
  unfold byteAt patchVarUint32
  rw [List.getElem?_set_ne (by omega), List.getElem?_set_ne (by omega),
    List.getElem?_set_ne (by omega), List.getElem?_set_ne (by omega),
    List.getElem?_set_ne (by omega)]

lemma length_patchVarUint32 (buf : List Nat) (pos n : Nat) :
    (patchVarUint32 buf pos n).length = buf.length := by
  simp [patchVarUint32]

/-- The 5-byte slot written by `patchVarUint32` decodes back to `n` for
every `n` below `2^32` (indeed below `2^35`). -/
lemma decode_patchVarUint32 (buf : List Nat) (pos n : Nat)
    (hpos : pos + 5 ≤ buf.length) (hn : n < 2 ^ 32) :
    decodeVarUint32At (patchVarUint32 buf pos n) pos = n := by
  have h0 : byteAt (patchVarUint32 buf pos n) pos = 0x80 + n % 0x80 := by
    unfold byteAt patchVarUint32
    rw [List.getElem?_set_ne (by omega), List.getElem?_set_ne (by omega),
      List.getElem?_set_ne (by omega), List.getElem?_set_ne (by omega),
      List.getElem?_set_eq_of_lt _ (by omega)]
    rfl
  have h1 : byteAt (patchVarUint32 buf pos n) (pos + 1) = 0x80 + n / 0x80 % 0x80 := by
    unfold byteAt patchVarUint32
    rw [List.getElem?_set_ne (by omega), List.getElem?_set_ne (by omega),
      List.getElem?_set_ne (by omega),
      List.getElem?_set_eq_of_lt _ (by rw [List.length_set]; omega)]
    rfl
  have h2 : byteAt (patchVarUint32 buf pos n) (pos + 2)
      = 0x80 + n / 0x80 ^ 2 % 0x80 := by
    unfold byteAt patchVarUint32
    rw [List.getElem?_set_ne (by omega), List.getElem?_set_ne (by omega),
      List.getElem?_set_eq_of_lt _ (by rw [List.length_set, List.length_set]; omega)]
    rfl
  have h3 : byteAt (patchVarUint32 buf pos n) (pos + 3)
      = 0x80 + n / 0x80 ^ 3 % 0x80 := by
    unfold byteAt patchVarUint32
    rw [List.getElem?_set_ne (by omega),
      List.getElem?_set_eq_of_lt _
        (by rw [List.length_set, List.length_set, List.length_set]; omega)]
    rfl
  have h4 : byteAt (patchVarUint32 buf pos n) (pos + 4) = n / 0x80 ^ 4 % 0x80 := by
    unfold byteAt patchVarUint32
    rw [List.getElem?_set_eq_of_lt _
      (by rw [List.length_set, List.length_set, List.length_set, List.length_set]
          omega)]
    rfl
  unfold decodeVarUint32At
  rw [h0, h1, h2, h3, h4]
  norm_num
  omega

lemma decode_patch_disjoint (buf : List Nat) (pos q n : Nat) (h : q + 5 ≤ pos) :
    decodeVarUint32At (patchVarUint32 buf q n) pos = decodeVarUint32At buf pos := by
  unfold decodeVarUint32At
  rw [byteAt_patch_out buf q n pos (by omega),
    byteAt_patch_out buf q n (pos + 1) (by omega),
    byteAt_patch_out buf q n (pos + 2) (by omega),
    byteAt_patch_out buf q n (pos + 3) (by omega),
    byteAt_patch_out buf q n (pos + 4) (by omega)]

/-! ## Concrete fixtures used by witnesses -/

/-- An emitter in state `Wasm` (right after `BeginWasm`). -/
def eWasm : Emitter := (writeBeginWasm none initEmitter).1

/-- An emitter in state `FunctionBody` (after `BeginWasm`,
`BeginSection(Code)`, `BeginFunctionBody` with no locals). -/
def eFB : Emitter :=
  (emitRun initEmitter
    [.beginWasm none, .beginSection ⟨sectionCodeCode, []⟩,
     .beginFunctionBody ⟨[]⟩]).1

/-- An emitter in state `TypeSection` holding one type entry. -/
def eTypeSec : Emitter :=
  (emitRun initEmitter
    [.beginWasm none, .beginSection ⟨sectionCodeType, []⟩,
     .typeSectionEntry ⟨typeTagFunc, [typeTagI32], [typeTagI32]⟩]).1

/-- An emitter in state `FunctionBody` whose last written operator is
`end`. -/
def eFBend : Emitter :=
  (emitRun initEmitter
    [.beginWasm none, .beginSection ⟨sectionCodeCode, []⟩,
     .beginFunctionBody ⟨[]⟩, .operator { code := opEnd }]).1

/-! ## Claim theorems -/

/-- C8: for the event sequence `BeginWasm, EndWasm` the emitter's
finalized data is exactly the 8 bytes `00 61 73 6D 01 00 00 00`, and the
disassembler's finalized output is exactly `"(module\n)\n"`. -/
theorem emptyModuleOutputs :
    (emitRun initEmitter [.beginWasm none, .endWasm]).2 = none
  ∧ (emitRun initEmitter [.beginWasm none, .endWasm]).1.data
      = some [0x00, 0x61, 0x73, 0x6D, 0x01, 0x00, 0x00, 0x00]
  ∧ disasmRun initDisasm [.beginWasm, .endWasm false]
      = .ok (some "(module\n)\n", initDisasm) := by
  refine ⟨rfl, rfl, rfl⟩

/-- C10: `writeBeginWasm` ignores the module-header payload: for every
header argument (including none) it appends the same fixed 8 bytes
`00 61 73 6D 01 00 00 00` and succeeds, so the emitted magic and version
never depend on the parsed header. -/
theorem beginWasmIgnoresHeader (h1 h2 : Option ModuleHeader) (e : Emitter)
    (he : e.state = .Initial) :
    writeBeginWasm h1 e = writeBeginWasm h2 e
  ∧ (writeBeginWasm h1 e).2 = none
  ∧ (writeBeginWasm h1 e).1.buffer
      = e.buffer ++ [0x00, 0x61, 0x73, 0x6D, 0x01, 0x00, 0x00, 0x00] := by
  simp [writeBeginWasm, he]

/-- Witness for C10 at a concrete header and emitter. -/
theorem beginWasmIgnoresHeaderWitness :
    writeBeginWasm (some ⟨0xbadbeef, 7⟩) initEmitter = writeBeginWasm none initEmitter
  ∧ (writeBeginWasm (some ⟨0xbadbeef, 7⟩) initEmitter).2 = none
  ∧ (writeBeginWasm (some ⟨0xbadbeef, 7⟩) initEmitter).1.buffer
      = initEmitter.buffer ++ [0x00, 0x61, 0x73, 0x6D, 0x01, 0x00, 0x00, 0x00] :=
  beginWasmIgnoresHeader (some ⟨0xbadbeef, 7⟩) none initEmitter rfl

/-- C2 counterexample: a `BeginSection` with id `Global` (6) received in
state `Wasm` does *not* transition to `Error` and does not throw: it is
accepted into the `GlobalSection` state. -/
theorem globalSectionAccepted :
    (writeBeginSection ⟨sectionCodeGlobal, []⟩ eWasm).2 = none
  ∧ (writeBeginSection ⟨sectionCodeGlobal, []⟩ eWasm).1.state
      = EmitterState.GlobalSection
  ∧ EmitterState.GlobalSection ≠ EmitterState.Error := by
  refine ⟨rfl, rfl, by decide⟩

/-- C2 as amended: for every `BeginSection` received in state `Wasm` whose
section id is `Custom`, `Start`, `Element` or `Table` (but not `Global`,
which is accepted), the emitter transitions to the `Error` state and
throws. -/
theorem unsupportedSectionsError (sec : SectionInfo) (e : Emitter)
    (he : e.state = .Wasm)
    (hid : sec.id = sectionCodeCustom ∨ sec.id = sectionCodeStart
      ∨ sec.id = sectionCodeElement ∨ sec.id = sectionCodeTable) :
    (writeBeginSection sec e).1.state = EmitterState.Error
  ∧ (writeBeginSection sec e).2 = some "Unexpected section" := by
  rcases hid with h | h | h | h <;>
    simp [writeBeginSection, he, sectionTargetState, h, sectionCodeCustom,
      sectionCodeType, sectionCodeImport, sectionCodeFunction, sectionCodeExport,
      sectionCodeCode, sectionCodeMemory, sectionCodeGlobal, sectionCodeData,
      sectionCodeStart, sectionCodeElement, sectionCodeTable]

/-- Witness for the amended C2 at a concrete `Start` section. -/
theorem unsupportedSectionsErrorWitness :
    (writeBeginSection ⟨sectionCodeStart, []⟩ eWasm).1.state = EmitterState.Error
  ∧ (writeBeginSection ⟨sectionCodeStart, []⟩ eWasm).2 = some "Unexpected section" :=
  unsupportedSectionsError ⟨sectionCodeStart, []⟩ eWasm rfl (Or.inr (Or.inl rfl))

/-- C3 counterexample: `f32.load` is a load opcode with a 32-bit access,
so the claim demands default alignment flags `2`; but the source gives
float accesses no default, and `memoryAddressToString({flags: 2,
offset: 16}, f32.load)` prints the alignment instead of eliding it. -/
theorem floatLoadNoDefaultAlign :
    memoryAddressToString ⟨2, 16⟩ opF32Load = "offset=16 align=4"
  ∧ memoryAddressToString ⟨2, 16⟩ opF32Load ≠ "offset=16" := by
  refine ⟨by decide, by decide⟩

/-- C3 as amended: for every load or store opcode that *has* a per-opcode
default alignment — the integer loads and stores, with defaults 3/2/1/0 by
access width; `f32`/`f64` accesses have none — and every offset `k`,
`memoryAddressToString({flags: default, offset: k}, code)` is
`"offset=k"`. -/
theorem defaultAlignmentElision (a : MemoryAddress) (code d : Nat)
    (hd : defaultAlignFlags code = some d) (hf : a.flags = d) :
    memoryAddressToString a code = "offset=" ++ toString a.offset := by
  simp [memoryAddressToString, hd, hf]

/-- Witness for the amended C3: `i32.load` with flags 2, offset 16. -/
theorem defaultAlignmentElisionWitness :
    memoryAddressToString ⟨2, 16⟩ opI32Load = "offset=16" :=
  (defaultAlignmentElision ⟨2, 16⟩ opI32Load 2 rfl rfl).trans (by decide)

/-- C1 (code bug): at the failing input `f32.const 1.0` (IEEE-754 bits
`0x3F800000`, little-endian bytes `00 00 80 3F`) the emitter appends the
opcode followed by four *zero* bytes, not the IEEE bytes of the literal —
`writeFloat32` never stores its argument (it calls `getFloat32` where
`setFloat32` was intended); likewise `f64.const 1.0` appends eight zero
bytes; and the emitted bytes are the same for every literal. -/
theorem floatConstEmitsZeroes :
    (writeOperator { code := opF32Const, literal := some (.float 0x3F800000) } eFB).1.buffer
      = eFB.buffer ++ [opF32Const, 0, 0, 0, 0]
  ∧ (writeOperator { code := opF32Const, literal := some (.float 0x3F800000) } eFB).1.buffer
      ≠ eFB.buffer ++ [opF32Const, 0x00, 0x00, 0x80, 0x3F]
  ∧ (writeOperator { code := opF64Const, literal := some (.float 0x3FF0000000000000) } eFB).1.buffer
      = eFB.buffer ++ [opF64Const, 0, 0, 0, 0, 0, 0, 0, 0]
  ∧ (∀ bits : Nat,
      (writeOperator { code := opF32Const, literal := some (.float bits) } eFB).1.buffer
        = eFB.buffer ++ [opF32Const, 0, 0, 0, 0]) := by
  refine ⟨rfl, by decide, rfl, fun bits => rfl⟩

/-- C7: in a function body or init expression, a `br_table` operator with
non-empty target list `ts` (default target last) emits the opcode byte,
then `varuint(|ts| - 1)`, then each target as a varuint in order. -/
theorem brTableEncoding (e : Emitter) (op : OperatorInfo) (ts : List Nat)
    (hs : e.state = .FunctionBody ∨ e.state = .InitExpression)
    (hc : op.code = opBrTable) (ht : op.brTable = some ts) (hne : ts ≠ []) :
    (writeOperator op e).2 = none
  ∧ (writeOperator op e).1.buffer
      = e.buffer ++ opBrTable
          :: (varUintBytes (ts.length - 1) ++ (ts.map varUintBytes).join) := by
  rcases hs with hs | hs <;>
    simp [writeOperator, hs, operatorImmediates, hc, ht, opBlock, opLoop, opIf,
      opBr, opBrIf, opBrTable]

/-- Witness for C7 at `brTable = [1,2,3,0]`: the emitted bytes are
`0x0E 0x03 0x01 0x02 0x03 0x00`. -/
theorem brTableEncodingWitness :
    (writeOperator { code := opBrTable, brTable := some [1, 2, 3, 0] } eFB).1.buffer
      = eFB.buffer ++ [0x0E, 0x03, 0x01, 0x02, 0x03, 0x00] :=
  (brTableEncoding eFB { code := opBrTable, brTable := some [1, 2, 3, 0] }
    [1, 2, 3, 0] (Or.inl rfl) rfl rfl (by decide)).2.trans (by decide)

/-- C4: after writing an operator in a function body (resp. init
expression), `writeEndFunctionBody` (resp. `writeEndInitExpression`)
succeeds if and only if that most recently written operator was `end`;
otherwise it throws and leaves the emitter unchanged. -/
theorem endOperatorDiscipline :
    (∀ (e : Emitter) (op : OperatorInfo), e.state = .FunctionBody →
      (((writeEndFunctionBody (writeOperator op e).1).2 = none) ↔ op.code = opEnd)
      ∧ (op.code ≠ opEnd → writeEndFunctionBody (writeOperator op e).1
          = ((writeOperator op e).1,
             some "End as a last written operator is expected.")))
  ∧ (∀ (e : Emitter) (op : OperatorInfo), e.state = .InitExpression →
      (((writeEndInitExpression (writeOperator op e).1).2 = none) ↔ op.code = opEnd)
      ∧ (op.code ≠ opEnd → writeEndInitExpression (writeOperator op e).1
          = ((writeOperator op e).1,
             some "End as a last written operator is expected."))) := by
  constructor
  · intro e op he
    by_cases hcode : op.code = opEnd <;>
      simp [writeOperator, writeEndFunctionBody, he, hcode]
  · intro e op he
    by_cases hcode : op.code = opEnd <;>
      simp [writeOperator, writeEndInitExpression, he, hcode]

/-- Witness for C4: in a concrete function body, closing after `nop`
throws leaving the emitter unchanged, closing after `end` succeeds. -/
theorem endOperatorDisciplineWitness :
    (writeEndFunctionBody (writeOperator { code := opEnd } eFB).1).2 = none
  ∧ writeEndFunctionBody (writeOperator { code := opNop } eFB).1
      = ((writeOperator { code := opNop } eFB).1,
         some "End as a last written operator is expected.") :=
  ⟨(endOperatorDiscipline.1 eFB { code := opEnd } rfl).1.mpr rfl,
   (endOperatorDiscipline.1 eFB { code := opNop } rfl).2 (by decide)⟩

/-- C9: `disassemble` returns `null` (not a string, not an error) whenever
`reader.read()` returns `false` (the event stream is exhausted), retaining
the accumulated fragments in the instance; resuming with the rest of the
events from the retained state produces exactly what a single run over all
events would. -/
theorem disassembleResumes :
    (∀ d : DisState, disasmRun d [] = .ok (none, d))
  ∧ (∀ (evs1 evs2 : List DisEvent) (d d1 : DisState),
      disasmRun d evs1 = .ok (none, d1) →
      disasmRun d (evs1 ++ evs2) = disasmRun d1 evs2) := by
  constructor
  · intro d; rfl
  · intro evs1
    induction evs1 with
    | nil =>
      intro evs2 d d1 h
      simp only [disasmRun] at h
      obtain ⟨-, rfl⟩ : none = (none : Option String) ∧ d = d1 := by
        have := Except.ok.inj h
        exact ⟨congrArg Prod.fst this, congrArg Prod.snd this⟩
      simp
    | cons ev rest ih =>
      intro evs2 d d1 h
      simp only [List.cons_append, disasmRun] at h ⊢
      cases hstep : disasmStep d ev with
      | cont d' =>
        rw [hstep] at h
        exact ih evs2 d' d1 h
      | done out d' =>
        rw [hstep] at h
        simp at h
      | fail msg =>
        rw [hstep] at h
        simp at h

/-- Witness for C9 at a concrete split: run `BeginWasm` alone (result
`null`, fragment retained), then resume with `EndWasm`. -/
theorem disassembleResumesWitness :
    disasmRun initDisasm [DisEvent.beginWasm]
      = .ok (none, { initDisasm with buffer := ["(module\n"] })
  ∧ disasmRun initDisasm ([DisEvent.beginWasm] ++ [DisEvent.endWasm false])
      = disasmRun { initDisasm with buffer := ["(module\n"] }
          [DisEvent.endWasm false] :=
  ⟨rfl,
   disassembleResumes.2 [DisEvent.beginWasm] [DisEvent.endWasm false]
     initDisasm { initDisasm with buffer := ["(module\n"] } rfl⟩

/-- C5: the value back-patched into the 5-byte section-size slot at
`EndSection` equals the buffer position at `EndSection` minus
`sectionStart`, and the value back-patched into the 5-byte body-size slot
at `EndFunctionBody` equals the position at `EndFunctionBody` minus
`bodyStart` (sizes assumed to fit an unsigned 32-bit integer, slots
in-range as the source guarantees by reserving them). -/
theorem sizeBackpatchConsistency :
    (∀ (e e' : Emitter), writeEndSection e = (e', none) →
      e.sectionSizeBytes + 5 ≤ e.buffer.length →
      e.buffer.length - e.sectionStart < 2 ^ 32 →
      decodeVarUint32At e'.buffer e.sectionSizeBytes
        = e.buffer.length - e.sectionStart
      ∧ e'.buffer.length = e.buffer.length)
  ∧ (∀ (e e' : Emitter), writeEndFunctionBody e = (e', none) →
      e.bodySizeBytes + 5 ≤ e.buffer.length →
      e.buffer.length - e.bodyStart < 2 ^ 32 →
      decodeVarUint32At e'.buffer e.bodySizeBytes
        = e.buffer.length - e.bodyStart
      ∧ e'.buffer.length = e.buffer.length) := by
  constructor
  · intro e e' h hslot hfit
    unfold writeEndSection at h
    split at h
    · exact absurd (congrArg Prod.snd h) (by simp)
    · obtain rfl := (congrArg Prod.fst h).symm
      dsimp only
      have hlen1 : (patchVarUint32 e.buffer e.sectionEntiesCountBytes
          e.sectionEntiesCount).length = e.buffer.length :=
        length_patchVarUint32 _ _ _
      refine ⟨?_, ?_⟩
      · rw [decode_patchVarUint32 _ _ _ (by rw [hlen1]; omega)
          (by rw [hlen1]; exact hfit), hlen1]
      · rw [length_patchVarUint32, hlen1]
  · intro e e' h hslot hfit
    unfold writeEndFunctionBody at h
    split at h
    · exact absurd (congrArg Prod.snd h) (by simp)
    · split at h
      · exact absurd (congrArg Prod.snd h) (by simp)
      · obtain rfl := (congrArg Prod.fst h).symm
        dsimp only
        exact ⟨decode_patchVarUint32 _ _ _ (by omega) hfit,
          length_patchVarUint32 _ _ _⟩

/-- Witness for C5: closing a concrete type section and a concrete
function body. -/
theorem sizeBackpatchConsistencyWitness :
    (decodeVarUint32At (writeEndSection eTypeSec).1.buffer eTypeSec.sectionSizeBytes
        = eTypeSec.buffer.length - eTypeSec.sectionStart
      ∧ (writeEndSection eTypeSec).1.buffer.length = eTypeSec.buffer.length)
  ∧ (decodeVarUint32At (writeEndFunctionBody eFBend).1.buffer eFBend.bodySizeBytes
        = eFBend.buffer.length - eFBend.bodyStart
      ∧ (writeEndFunctionBody eFBend).1.buffer.length = eFBend.buffer.length) :=
  ⟨sizeBackpatchConsistency.1 eTypeSec (writeEndSection eTypeSec).1 rfl
      (by decide) (by decide),
   sizeBackpatchConsistency.2 eFBend (writeEndFunctionBody eFBend).1 rfl
      (by decide) (by decide)⟩

/-! ## Invariants of intra-section events (for the entries-count claim) -/

/-- Every successful event handled strictly inside a section increments
`sectionEntiesCount` exactly when it is an entry event, never moves the
two section back-patch bookmarks, and never shrinks the buffer. -/
lemma emitStep_intra (e e' : Emitter) (ev : Event)
    (hev : isIntraSectionEvent ev = true)
    (h : emitStep e ev = (e', none)) :
    e'.sectionEntiesCount
        = e.sectionEntiesCount + (if isEntryEvent ev then 1 else 0)
    ∧ e'.sectionEntiesCountBytes = e.sectionEntiesCountBytes
    ∧ e'.sectionSizeBytes = e.sectionSizeBytes
    ∧ e'.sectionStart = e.sectionStart
    ∧ e.buffer.length ≤ e'.buffer.length := by
  cases ev with
  | beginWasm header => simp [isIntraSectionEvent] at hev
  | endWasm => simp [isIntraSectionEvent] at hev
  | beginSection sec => simp [isIntraSectionEvent] at hev
  | endSection => simp [isIntraSectionEvent] at hev
  | typeSectionEntry t =>
    simp only [emitStep] at h
    unfold writeTypeSectionEntry at h
    split at h
    · exact absurd (congrArg Prod.snd h) (by simp)
    · obtain rfl := (congrArg Prod.fst h).symm
      simp [isEntryEvent]
  | importSectionEntry entry =>
    simp only [emitStep] at h
    unfold writeImportSectionEntry at h
    dsimp only at h
    repeat' split at h
    all_goals
      first
        | exact absurd (congrArg Prod.snd h) (Option.some_ne_none _)
        | (obtain rfl := (congrArg Prod.fst h).symm
           exact ⟨by simp [isEntryEvent], rfl, rfl, rfl,
             by simp only [List.length_append]; omega⟩)
  | functionSectionEntry typeIndex =>
    simp only [emitStep] at h
    unfold writeFunctionSectionEntry at h
    split at h
    · exact absurd (congrArg Prod.snd h) (by simp)
    · obtain rfl := (congrArg Prod.fst h).symm
      simp [isEntryEvent]
  | exportSectionEntry entry =>
    simp only [emitStep] at h
    unfold writeExportSectionEntry at h
    split at h
    · exact absurd (congrArg Prod.snd h) (by simp)
    · obtain rfl := (congrArg Prod.fst h).symm
      simp [isEntryEvent]
  | beginFunctionBody fi =>
    simp only [emitStep] at h
    unfold writeBeginFunctionBody at h
    dsimp only at h
    split at h
    · exact absurd (congrArg Prod.snd h) (by simp)
    · obtain rfl := (congrArg Prod.fst h).symm
      exact ⟨by simp [isEntryEvent], rfl, rfl, rfl,
        by simp only [List.length_append]; omega⟩
  | endFunctionBody =>
    simp only [emitStep] at h
    unfold writeEndFunctionBody at h
    repeat' split at h
    all_goals
      first
        | exact absurd (congrArg Prod.snd h) (Option.some_ne_none _)
        | (obtain rfl := (congrArg Prod.fst h).symm
           exact ⟨by simp [isEntryEvent], rfl, rfl, rfl,
             by simp [length_patchVarUint32]⟩)
  | memorySectionEntry entry =>
    simp only [emitStep] at h
    unfold writeMemorySectionEntry at h
    split at h
    · exact absurd (congrArg Prod.snd h) (by simp)
    · obtain rfl := (congrArg Prod.fst h).symm
      simp [isEntryEvent]
  | operator op =>
    simp only [emitStep] at h
    unfold writeOperator at h
    split at h
    · exact absurd (congrArg Prod.snd h) (by simp)
    · obtain rfl := (congrArg Prod.fst h).symm
      simp [isEntryEvent]
  | beginDataSectionEntry entry =>
    simp only [emitStep] at h
    unfold writeBeginDataSectionEntry at h
    split at h
    · exact absurd (congrArg Prod.snd h) (by simp)
    · obtain rfl := (congrArg Prod.fst h).symm
      simp [isEntryEvent]
  | dataSectionBody body =>
    simp only [emitStep] at h
    unfold writeDataSectionBody at h
    split at h
    · exact absurd (congrArg Prod.snd h) (by simp)
    · obtain rfl := (congrArg Prod.fst h).symm
      simp [isEntryEvent]
  | endDataSectionEntry =>
    simp only [emitStep] at h
    unfold writeEndDataSectionEntry at h
    split at h
    · exact absurd (congrArg Prod.snd h) (by simp)
    · obtain rfl := (congrArg Prod.fst h).symm
      simp [isEntryEvent]
  | beginInitExpression =>
    simp only [emitStep] at h
    unfold writeBeginInitExpression at h
    split at h
    · exact absurd (congrArg Prod.snd h) (by simp)
    · obtain rfl := (congrArg Prod.fst h).symm
      simp [isEntryEvent]
  | endInitExpression =>
    simp only [emitStep] at h
    unfold writeEndInitExpression at h
    repeat' split at h
    all_goals
      first
        | exact absurd (congrArg Prod.snd h) (Option.some_ne_none _)
        | (obtain rfl := (congrArg Prod.fst h).symm
           exact ⟨by simp [isEntryEvent], rfl, rfl, rfl, le_refl _⟩)

/-- Running any successful list of intra-section events accumulates the
entry count, keeps both section bookmarks, and never shrinks the
buffer. -/
lemma emitRun_intra (evs : List Event) : ∀ (e e' : Emitter),
    (∀ ev ∈ evs, isIntraSectionEvent ev = true) →
    emitRun e evs = (e', none) →
    e'.sectionEntiesCount = e.sectionEntiesCount + countEntries evs
    ∧ e'.sectionEntiesCountBytes = e.sectionEntiesCountBytes
    ∧ e'.sectionSizeBytes = e.sectionSizeBytes
    ∧ e'.sectionStart = e.sectionStart
    ∧ e.buffer.length ≤ e'.buffer.length := by
  induction evs with
  | nil =>
    intro e e' _ h
    obtain rfl := (congrArg Prod.fst h).symm
    simp [countEntries]
  | cons ev rest ih =>
    intro e e' hall h
    simp only [emitRun] at h
    rcases hstep : emitStep e ev with ⟨e1, r⟩
    rw [hstep] at h
    cases r with
    | some msg => exact absurd (congrArg Prod.snd h) (Option.some_ne_none _)
    | none =>
      have hev := hall ev (List.mem_cons_self ev rest)
      have h1 := emitStep_intra e e1 ev hev hstep
      have h2 := ih e1 e' (fun x hx => hall x (List.mem_cons_of_mem ev hx)) h
      have hcount : countEntries (ev :: rest)
          = (if isEntryEvent ev then 1 else 0) + countEntries rest := by
        by_cases hE : isEntryEvent ev <;>
          simp [countEntries, List.filter_cons, hE, Nat.add_comm]
      refine ⟨?_, ?_, ?_, ?_, ?_⟩
      · rw [h2.1, h1.1, hcount]; omega
      · rw [h2.2.1, h1.2.1]
      · rw [h2.2.2.1, h1.2.2.1]
      · rw [h2.2.2.2.1, h1.2.2.2.1]
      · exact le_trans h1.2.2.2.2 h2.2.2.2.2

/-- Facts established by a successful `writeBeginSection`: the entry count
starts at zero, the entries-count slot is the last five bytes written, and
it sits entirely after the section-size slot. -/
lemma writeBeginSection_ok (sec : SectionInfo) (e0 e1 : Emitter)
    (h : writeBeginSection sec e0 = (e1, none)) :
    e1.sectionEntiesCount = 0
    ∧ e1.sectionEntiesCountBytes + 5 = e1.buffer.length
    ∧ e1.sectionSizeBytes + 5 ≤ e1.sectionEntiesCountBytes := by
  unfold writeBeginSection at h
  split at h
  · exact absurd (congrArg Prod.snd h) (Option.some_ne_none _)
  · dsimp only at h
    split at h
    · obtain rfl := (congrArg Prod.fst h).symm
      refine ⟨rfl, ?_, ?_⟩ <;>
        simp [patchableVarUint32Bytes, List.length_append] <;> omega
    · exact absurd (congrArg Prod.snd h) (Option.some_ne_none _)

/-- C6: the value back-patched into the entries-count slot at `EndSection`
equals the number of entry events (section entries, function-body begins,
data-entry begins) accepted between `BeginSection` and that `EndSection`
(count assumed to fit an unsigned 32-bit integer). -/
theorem entriesCountBackpatch (sec : SectionInfo) (e0 e1 e2 e3 : Emitter)
    (evs : List Event)
    (h1 : writeBeginSection sec e0 = (e1, none))
    (hall : ∀ ev ∈ evs, isIntraSectionEvent ev = true)
    (h2 : emitRun e1 evs = (e2, none))
    (h3 : writeEndSection e2 = (e3, none))
    (hfit : countEntries evs < 2 ^ 32) :
    decodeVarUint32At e3.buffer e1.sectionEntiesCountBytes = countEntries evs := by
  obtain ⟨hb1, hb2, hb3⟩ := writeBeginSection_ok sec e0 e1 h1
  obtain ⟨hr1, hr2, hr3, hr4, hr5⟩ := emitRun_intra evs e1 e2 hall h2
  unfold writeEndSection at h3
  split at h3
  · exact absurd (congrArg Prod.snd h3) (Option.some_ne_none _)
  · obtain rfl := (congrArg Prod.fst h3).symm
    dsimp only
    rw [hr2, hr3]
    rw [decode_patch_disjoint _ _ _ _ (by omega)]
    rw [decode_patchVarUint32 _ _ _ (by omega) (by rw [hr1, hb1]; omega)]
    rw [hr1, hb1]
    omega

/-- Witness for C6: a type section with two entries plus a code section
begin/end pair nowhere in sight; the patched count is 2. -/
theorem entriesCountBackpatchWitness :
    decodeVarUint32At
        (writeEndSection
          (emitRun eWasm
            [.beginSection ⟨sectionCodeType, []⟩,
             .typeSectionEntry ⟨typeTagFunc, [], []⟩,
             .typeSectionEntry ⟨typeTagFunc, [typeTagI32], []⟩]).1).1.buffer
        (writeBeginSection ⟨sectionCodeType, []⟩ eWasm).1.sectionEntiesCountBytes
      = countEntries
          [Event.typeSectionEntry ⟨typeTagFunc, [], []⟩,
           Event.typeSectionEntry ⟨typeTagFunc, [typeTagI32], []⟩] :=
  entriesCountBackpatch ⟨sectionCodeType, []⟩ eWasm
    (writeBeginSection ⟨sectionCodeType, []⟩ eWasm).1
    (emitRun eWasm
      [.beginSection ⟨sectionCodeType, []⟩,
       .typeSectionEntry ⟨typeTagFunc, [], []⟩,
       .typeSectionEntry ⟨typeTagFunc, [typeTagI32], []⟩]).1
    (writeEndSection
      (emitRun eWasm
        [.beginSection ⟨sectionCodeType, []⟩,
         .typeSectionEntry ⟨typeTagFunc, [], []⟩,
         .typeSectionEntry ⟨typeTagFunc, [typeTagI32], []⟩]).1).1
    [Event.typeSectionEntry ⟨typeTagFunc, [], []⟩,
     Event.typeSectionEntry ⟨typeTagFunc, [typeTagI32], []⟩]
    rfl (by decide) rfl rfl (by decide)
